import Mathlib

/-!
Shallow embedding of `src/app.py` (Free Fire ban-check HTTP proxy).

The program is a Flask app.  The embedding models:
  * Python/JSON values (`Json`) together with the Python primitives the
    code uses on them: truthiness, `len`, `str()`, `dict.get`;
  * the upstream HTTP interaction as an abstract `FetchOutcome`
    (timeout / other exception / an HTTP reply carrying a status code and
    a JSON body, where a body of `.error ()` models `res.json()` raising);
  * `get_player_info`, `check_ban_status`, `check_banned_fast` and the
    route handlers `check` (`/check`) and `get_full_info` (`/info/<uid>`)
    as total Lean functions;
  * the `functools.lru_cache(maxsize=100)` memoization on
    `get_player_info_cached` as an explicit recency-ordered association
    list with LRU eviction.

Python exceptions inside a `try` block are modelled with `Except Unit`;
every handler catches them exactly where the source does.
-/

/-- A JSON value (also standing for the Python value `res.json()` yields).
JSON numbers are modelled as integers; no numeric payload in this program
is fractional. -/
inductive Json where
  | null
  | bool (b : Bool)
  | num (n : Int)
  | str (s : String)
  | arr (elems : List Json)
  | obj (fields : List (String × Json))

/-- Python falsiness: `None`, `False`, `0`, `""`, `[]` and `\x7b\x7d` are
falsy, everything else truthy (`if not x`, `bool(x)`, `if x:`). -/
def pyFalsy : Json → Bool
  | .null => true
  | .bool b => !b
  | .num n => n == 0
  | .str s => s.isEmpty
  | .arr elems => elems.isEmpty
  | .obj fields => fields.isEmpty

/-- Python truthiness, `bool(x)`. -/
def pyTruthy (j : Json) : Bool := !pyFalsy j

/-- Python `len(x)`: defined on strings, lists and dicts; raises
`TypeError` (modelled as `none`) on the other values. -/
def pyLen : Json → Option Nat
  | .str s => some s.length
  | .arr elems => some elems.length
  | .obj fields => some fields.length
  | _ => none

/-- Python `repr()` of a JSON value; container cases follow Python's
`repr` shape. -/
def pyRepr (j : Json) : String :=
  match j with
  | .null => "None"
  | .bool b => if b then "True" else "False"
  | .num n => toString n
  | .str s => "'" ++ s ++ "'"
  | .arr elems => "[" ++ ", ".intercalate (elems.attach.map fun e => pyRepr e.1) ++ "]"
  | .obj fields =>
      "\x7b" ++ ", ".intercalate
        (fields.attach.map fun f => "'" ++ f.1.1 ++ "': " ++ pyRepr f.1.2) ++ "\x7d"
termination_by sizeOf j
decreasing_by
  · have := List.sizeOf_lt_of_mem e.2
    simp; omega
  · obtain ⟨⟨s, jv⟩, hmem⟩ := f
    have := List.sizeOf_lt_of_mem hmem
    simp at this ⊢; omega

/-- Python `str(x)`, as used by `str(...)` and f-string interpolation in
the source: identical to `repr(x)` except on strings, which are rendered
without quotes. -/
def pyStr (j : Json) : String :=
  match j with
  | .null => "None"
  | .bool b => if b then "True" else "False"
  | .num n => toString n
  | .str s => s
  | j => pyRepr j

/-- Python `x.get(key, default)`: succeeds on a dict (first binding of
`key`, else `default`); raises `AttributeError` (modelled as
`.error ()`) on any non-dict value. -/
def pyDictGet (j : Json) (key : String) (dflt : Json) : Except Unit Json :=
  match j with
  | .obj fields => .ok ((List.lookup key fields).getD dflt)
  | _ => .error ()

/-- The dictionary `get_player_info` returns (`src/app.py` lines 29-40,
83-95, 99-110, 113-124).  Fields that are `str(...)` or f-string results
in every branch are `String`; fields that can carry a raw upstream JSON
value are `Json`.  The three failure dictionaries have no `"signature"`
key, hence `signature : Option Json`. -/
structure PlayerInfo where
  nickname : Json
  region : Json
  lastLoginAt : String
  lastLoginReadable : Json
  createAt : String
  createAtReadable : Json
  level : String
  experience : String
  rank : String
  guild : Json
  signature : Option Json

/-- The fallback dictionary that `get_player_info` returns on each of its
three failure paths; the source spells the dictionary out three times,
varying only the nickname ("❌ Fetch failed", "❌ Timeout", "❌ Error"). -/
def fallbackInfo (nickname : String) (server : String) : PlayerInfo where
  nickname := .str nickname
  region := .str server
  lastLoginAt := "0"
  lastLoginReadable := .str "❌ Unknown"
  createAt := "0"
  createAtReadable := .str "❌ Unknown"
  level := "0"
  experience := "0"
  rank := "Unknown"
  guild := .str "None"
  signature := none

/-- Python `s.split(" ")`: split on every single space character,
keeping empty fields (`"a  b".split(" ") == ['a', '', 'b']`,
`"".split(" ") == ['']`). -/
def pySplitSpace (s : String) : List String :=
  go s.data
where
  /-- Structural worker over the character list. -/
  go : List Char → List String
  | [] => [""]
  | c :: cs =>
      if c = ' ' then "" :: go cs
      else
        match go cs with
        | t :: ts => String.mk (c :: t.data) :: ts
        | [] => [String.mk [c]]

/-- `parse_date_string` (lines 68-78), lifted to the JSON value the
enclosing `.get` produced.  A falsy value yields "❌ Unknown"; a
non-string truthy value makes `date_str.split` raise, which the inner
bare `except` turns into returning the value unchanged; a non-empty
string keeps the first two tokens of `split(" ")` when there are at
least two, otherwise is returned unchanged. -/
def parse_date_string (date_str : Json) : Json :=
  if pyFalsy date_str then .str "❌ Unknown"
  else
    match date_str with
    | .str s =>
        let date_part := (pySplitSpace s).take 2
        if date_part.length ≥ 2 then .str (" ".intercalate date_part) else .str s
    | j => j

/-- The `"signature"` entry of the success dictionary (line 94):
`signature[:50] + "..." if len(signature) > 50 else signature`.
`len` raises on non-sized values; slicing-plus-string raises on sized
non-strings when the length exceeds 50. -/
def signatureEntry (signature : Json) : Except Unit Json :=
  match pyLen signature with
  | none => .error ()
  | some n =>
      if n > 50 then
        match signature with
        | .str s => .ok (.str (s.take 50 ++ "..."))
        | _ => .error ()
      else .ok signature

/-- The body of `get_player_info`'s success path (lines 42-95): parsing
`data = res.json()` into the returned dictionary.  Any Python exception
raised while parsing (a `.get` on a non-dict, `len` on an unsized
signature) escapes to the enclosing `except Exception` handler, modelled
by `.error ()`. -/
def parseInfo (server : String) (data : Json) : Except Unit PlayerInfo := do
  let account_info ← pyDictGet data "AccountInfo" (.obj [])
  let nickname ← pyDictGet account_info "AccountName" (.str "❌ Not available")
  let region ← pyDictGet account_info "AccountRegion" (.str server)
  let level := pyStr (← pyDictGet account_info "AccountLevel" (.str "0"))
  let experience := pyStr (← pyDictGet account_info "AccountEXP" (.str "0"))
  let last_login_str ← pyDictGet account_info "AccountLastLogin" (.str "")
  let create_time_str ← pyDictGet account_info "AccountCreateTime" (.str "")
  let account_profile ← pyDictGet data "AccountProfileInfo" (.obj [])
  let rank_point ← pyDictGet account_profile "BrRankPoint" (.str "0")
  let guild_info ← pyDictGet data "GuildInfo" (.obj [])
  let guild_name ← pyDictGet guild_info "GuildName" (.str "No Guild")
  let social_info ← pyDictGet data "SocialInfo" (.obj [])
  let signature ← pyDictGet social_info "signature" (.str "")
  let sig ← signatureEntry signature
  .ok { nickname := nickname
        region := region
        lastLoginAt := "0"
        lastLoginReadable := parse_date_string last_login_str
        createAt := "0"
        createAtReadable := parse_date_string create_time_str
        level := level
        experience := experience
        rank := "BR: " ++ pyStr rank_point
        guild := guild_name
        signature := some sig }

/-- Outcome of one upstream `requests.get`: a timeout, some other
exception, or an HTTP reply with a status code and a body.  A body of
`.error ()` models a reply whose `res.json()` raises (invalid JSON). -/
inductive FetchOutcome where
  | timeout
  | exc
  | http (status : Nat) (body : Except Unit Json)

/-- `get_player_info(player_id, server)` (lines 22-124) as a function of
the upstream outcome.  Non-200 replies are rejected before the body is
ever parsed; a `requests.Timeout` hits the dedicated handler; every
other exception (including JSON/parsing failures on a 200 reply) hits
the generic handler.  `o` is the outcome of the `requests.get` on the
info URL built from `player_id` (the id itself is otherwise only
logged). -/
def get_player_info (player_id server : String) (o : FetchOutcome) : PlayerInfo :=
  match o with
  | .timeout => fallbackInfo "❌ Timeout" server
  | .exc => fallbackInfo "❌ Error" server
  | .http status body =>
      if status ≠ 200 then fallbackInfo "❌ Fetch failed" server
      else
        match body with
        | .error _ => fallbackInfo "❌ Error" server
        | .ok data =>
            match parseInfo server data with
            | .error _ => fallbackInfo "❌ Error" server
            | .ok info => info

/-- The capacity of `functools.lru_cache(maxsize=100)` (line 16). -/
def maxsize : Nat := 100

/-- One access to an LRU-memoized function, modelling
`functools.lru_cache(maxsize=100)`: the cache is an association list
ordered most-recently-used first.  A hit returns the stored value and
moves its entry to the front; a miss computes `compute k`, inserts it at
the front and drops the least-recently-used entry when the capacity
would be exceeded. -/
def lruAccess {K V : Type} [DecidableEq K] (entries : List (K × V))
    (compute : K → V) (k : K) : V × List (K × V) :=
  match entries.find? (fun p => decide (p.1 = k)) with
  | some p => (p.2, (k, p.2) :: entries.filter (fun q => decide (q.1 ≠ k)))
  | none =>
      let v := compute k
      (v, ((k, v) :: entries).take maxsize)

/-- The state of the `get_player_info_cached` memoization: keys are the
argument tuples `(player_id, server)`, values are the memoized player
records, most recently used first. -/
abbrev Cache := List ((String × String) × PlayerInfo)

/-- `get_player_info_cached(player_id, server)` (lines 16-19): the
LRU-cached wrapper of `get_player_info`.  `infoEnv` gives the upstream
outcome a fresh fetch for a given `(player_id, server)` tuple would see
at this moment; it is consulted only on a cache miss. -/
def get_player_info_cached (c : Cache) (infoEnv : String × String → FetchOutcome)
    (player_id server : String) : PlayerInfo × Cache :=
  lruAccess c (fun k => get_player_info k.1 k.2 (infoEnv k)) (player_id, server)

/-- Folding a sequence of cache accesses (each one a call of
`get_player_info_cached`-style lookup) over a starting cache, keeping
only the resulting cache state. -/
def lruFill {K V : Type} [DecidableEq K] (compute : K → V) (ks : List K) : List (K × V) :=
  ks.foldl (fun c k => (lruAccess c compute k).2) []

/-- The dictionary `check_ban_status` returns (lines 141-148). -/
structure BanInfo where
  is_banned : Json
  period : Json
  success : Bool

/-- `check_ban_status(player_id)` (lines 127-148) as a function of the
upstream outcome of the `requests.get` on the Garena ban-check URL.  On
a 200 reply it reads `response.json().get("data", \x7b\x7d)` and the
`is_banned` / `period` entries; any exception (invalid JSON, `.get` on a
non-dict) and any non-200 reply degrade to the all-zero failure
dictionary with `success = False`. -/
def check_ban_status (o : FetchOutcome) : BanInfo :=
  match o with
  | .timeout => { is_banned := .num 0, period := .num 0, success := false }
  | .exc => { is_banned := .num 0, period := .num 0, success := false }
  | .http status body =>
      if status = 200 then
        match body with
        | .error _ => { is_banned := .num 0, period := .num 0, success := false }
        | .ok j =>
            match pyDictGet j "data" (.obj []) with
            | .error _ => { is_banned := .num 0, period := .num 0, success := false }
            | .ok data =>
                match pyDictGet data "is_banned" (.num 0), pyDictGet data "period" (.num 0) with
                | .ok ib, .ok p => { is_banned := ib, period := p, success := true }
                | _, _ => { is_banned := .num 0, period := .num 0, success := false }
      else { is_banned := .num 0, period := .num 0, success := false }

/-- The aggregated dictionary `check_banned_fast` builds (lines
165-185).  Field names follow the emoji-labelled keys of the source
dictionary; `bio` is the optional "✏️ BIO" entry, present only when the
player record's signature is truthy. -/
structure AggResult where
  status : String
  uid : String
  nickname : Json
  region : Json
  level : String
  experience : String
  rank : String
  guild : Json
  lastLogin : Json
  createdAt : Json
  account : String
  duration : String
  banned : Bool
  poweredBy : String
  channel : String
  bio : Option Json

/-- `check_banned_fast(player_id, server)` (lines 151-187): fetch the
(cached) player record and the ban record — in the source concurrently,
joining on both before proceeding, which is observationally sequential —
then merge them into the aggregated dictionary.  `banEnv` gives the
upstream outcome of the ban-check fetch for a given id. -/
def check_banned_fast (c : Cache) (infoEnv : String × String → FetchOutcome)
    (banEnv : String → FetchOutcome) (player_id server : String) : AggResult × Cache :=
  let pr := get_player_info_cached c infoEnv player_id server
  let player_info := pr.1
  let ban_info := check_ban_status (banEnv player_id)
  let is_banned := ban_info.is_banned
  ({ status := if ban_info.success then "Account checked successfully" else "Partial data fetched"
     uid := player_id
     nickname := player_info.nickname
     region := player_info.region
     level := player_info.level
     experience := player_info.experience
     rank := player_info.rank
     guild := player_info.guild
     lastLogin := player_info.lastLoginReadable
     createdAt := player_info.createAtReadable
     account := if pyTruthy is_banned then "🚫 BANNED" else "✅ NOT BANNED"
     duration := if pyTruthy is_banned then pyStr ban_info.period ++ " month(s)" else "No ban"
     banned := pyTruthy is_banned
     poweredBy := "@dev_eco"
     channel := "https://discord.gg/Mba5bNbdCP"
     bio := match player_info.signature with
            | some s => if pyTruthy s then some s else none
            | none => none }, pr.2)

/-- The inclusive code-point ranges on which Python's single-character
`isdigit` test is true: the characters whose Unicode `Numeric_Type`
property is Digit or Decimal, per the Unicode character database used
by CPython.  Besides the ASCII decimal digits 0-9 (the first range)
this covers the decimal digits of other scripts (e.g. '٣', U+0663) and
digit characters that are not decimal digits, such as the superscripts
'²' and '³' (U+00B2, U+00B3). -/
def pyDigitRanges : List (Nat × Nat) := [
  (0x30, 0x39), (0xB2, 0xB3), (0xB9, 0xB9), (0x660, 0x669), (0x6F0, 0x6F9),
  (0x7C0, 0x7C9), (0x966, 0x96F), (0x9E6, 0x9EF), (0xA66, 0xA6F), (0xAE6, 0xAEF),
  (0xB66, 0xB6F), (0xBE6, 0xBEF), (0xC66, 0xC6F), (0xCE6, 0xCEF), (0xD66, 0xD6F),
  (0xDE6, 0xDEF), (0xE50, 0xE59), (0xED0, 0xED9), (0xF20, 0xF29), (0x1040, 0x1049),
  (0x1090, 0x1099), (0x1369, 0x1371), (0x17E0, 0x17E9), (0x1810, 0x1819), (0x1946, 0x194F),
  (0x19D0, 0x19DA), (0x1A80, 0x1A89), (0x1A90, 0x1A99), (0x1B50, 0x1B59), (0x1BB0, 0x1BB9),
  (0x1C40, 0x1C49), (0x1C50, 0x1C59), (0x2070, 0x2070), (0x2074, 0x2079), (0x2080, 0x2089),
  (0x2460, 0x2468), (0x2474, 0x247C), (0x2488, 0x2490), (0x24EA, 0x24EA), (0x24F5, 0x24FD),
  (0x24FF, 0x24FF), (0x2776, 0x277E), (0x2780, 0x2788), (0x278A, 0x2792), (0xA620, 0xA629),
  (0xA8D0, 0xA8D9), (0xA900, 0xA909), (0xA9D0, 0xA9D9), (0xA9F0, 0xA9F9), (0xAA50, 0xAA59),
  (0xABF0, 0xABF9), (0xFF10, 0xFF19), (0x104A0, 0x104A9), (0x10A40, 0x10A43), (0x10D30, 0x10D39),
  (0x10E60, 0x10E68), (0x11052, 0x1105A), (0x11066, 0x1106F), (0x110F0, 0x110F9), (0x11136, 0x1113F),
  (0x111D0, 0x111D9), (0x112F0, 0x112F9), (0x11450, 0x11459), (0x114D0, 0x114D9), (0x11650, 0x11659),
  (0x116C0, 0x116C9), (0x11730, 0x11739), (0x118E0, 0x118E9), (0x11950, 0x11959), (0x11C50, 0x11C59),
  (0x11D50, 0x11D59), (0x11DA0, 0x11DA9), (0x16A60, 0x16A69), (0x16AC0, 0x16AC9), (0x16B50, 0x16B59),
  (0x1D7CE, 0x1D7FF), (0x1E140, 0x1E149), (0x1E2F0, 0x1E2F9), (0x1E950, 0x1E959), (0x1F100, 0x1F10A),
  (0x1FBF0, 0x1FBF9)]

/-- Python's per-character `isdigit` test: the code point lies in one of
the Unicode digit ranges. -/
def pyCharIsdigit (c : Char) : Bool :=
  pyDigitRanges.any fun r => r.1 ≤ c.toNat && c.toNat ≤ r.2

/-- Python `str.isdigit()`: non-empty and every character a Unicode
digit code point.  Note this is wider than "ASCII decimal digits
only": e.g. `"²".isdigit()` and `"٣".isdigit()` are both true. -/
def pyIsdigit (s : String) : Bool := !s.isEmpty && s.data.all pyCharIsdigit

/-- The body of a `/check` HTTP response: a structured error dictionary
`\x7b"⚠️ error"/"💥 exception": msg, "status_code": code\x7d` or the
serialized aggregated result. -/
inductive CheckBody where
  | err (msg : String) (status_code : Nat)
  | ok (r : AggResult)

/-- An HTTP reply of the `/check` route: status code and body. -/
structure CheckResp where
  status : Nat
  body : CheckBody

/-- The `/check` route handler `check()` (lines 189-231).  `uidArg` and
`serverArg` model `request.args.get("uid", "")` and
`request.args.get("server", "BD")` (a missing parameter is `none`).
An empty id is rejected first, then a non-`isdigit` id; otherwise the
aggregated result is returned with status 200.  (The source's final
catch-all, which maps an unexpected internal exception to a 500
response, is unreachable in this model because every modelled
operation is total.) -/
def check (uidArg serverArg : Option String) (c : Cache)
    (infoEnv : String × String → FetchOutcome) (banEnv : String → FetchOutcome) :
    CheckResp × Cache :=
  let player_id := uidArg.getD ""
  let server := serverArg.getD "BD"
  if player_id.isEmpty then
    ({ status := 400, body := .err "Player ID (uid) is required!" 400 }, c)
  else if !pyIsdigit player_id then
    ({ status := 400, body := .err "Invalid UID format. Must be numeric!" 400 }, c)
  else
    let rc := check_banned_fast c infoEnv banEnv player_id server
    ({ status := 200, body := .ok rc.1 }, rc.2)

/-- The body of an `/info/<uid>` HTTP response: the upstream JSON
forwarded verbatim, the upstream-failure error envelope, or the
internal-exception envelope. -/
inductive InfoBody where
  | forwarded (data : Json)
  | errEnvelope (msg : String) (status_code : Nat)
  | excEnvelope (msg : String) (status_code : Nat)

/-- An HTTP reply of the `/info/<uid>` route. -/
structure InfoResp where
  status : Nat
  body : InfoBody

/-- The `/info/<uid>` route handler `get_full_info(uid)` (lines
247-279).  No validation of `uid` happens; a 200 upstream reply with
parseable JSON is forwarded verbatim with status 200; any other
upstream status `s` yields status `s` with the error envelope carrying
`s`; any exception (timeout, connection error, `response.json()`
raising) yields the 500 internal-exception envelope. -/
def get_full_info (uid : String) (o : FetchOutcome) : InfoResp :=
  match o with
  | .timeout => { status := 500, body := .excEnvelope "Internal server error" 500 }
  | .exc => { status := 500, body := .excEnvelope "Internal server error" 500 }
  | .http status body =>
      if status = 200 then
        match body with
        | .ok data => { status := 200, body := .forwarded data }
        | .error _ => { status := 500, body := .excEnvelope "Internal server error" 500 }
      else
        { status := status, body := .errEnvelope "Failed to fetch account info" status }

section LruLemmas

variable {K V : Type} [DecidableEq K]

/-- A miss (the key is absent) computes the value, inserts it at the
front and truncates to capacity. -/
theorem lruAccess_miss (c : List (K × V)) (f : K → V) (k : K)
    (h : ∀ q ∈ c, q.1 ≠ k) :
    lruAccess c f k = (f k, ((k, f k) :: c).take maxsize) := by
  unfold lruAccess
  rw [List.find?_eq_none.mpr]
  intro q hq
  simpa using h q hq

/-- A hit on the most recently used entry returns the stored value and
keeps the entry at the front. -/
theorem lruAccess_cons_self (k : K) (v : V) (rest : List (K × V)) (f : K → V) :
    lruAccess ((k, v) :: rest) f k =
      (v, (k, v) :: ((k, v) :: rest).filter (fun q => decide (q.1 ≠ k))) := by
  unfold lruAccess
  rw [List.find?_cons_of_pos _ (by simp)]

/-- One cache access never grows the cache beyond `maxsize`. -/
theorem lruAccess_length_le (c : List (K × V)) (f : K → V) (k : K)
    (h : c.length ≤ maxsize) :
    ((lruAccess c f k).2).length ≤ maxsize := by
  unfold lruAccess
  cases hf : c.find? (fun p => decide (p.1 = k)) with
  | none =>
      simp only [List.length_take]
      omega
  | some p =>
      have hp : p ∈ c := List.mem_of_find?_eq_some hf
      have hpk : p.1 = k := by simpa using List.find?_some hf
      have : (c.filter (fun q => decide (q.1 ≠ k))).length < c.length := by
        rw [List.length_filter_lt_length_iff_exists]
        exact ⟨p, hp, by simp [hpk]⟩
      simp only [List.length_cons]
      omega

/-- Folding misses of pairwise-fresh keys over a within-capacity cache:
the result is the reversed key sequence (paired with its computed
values) stacked on the old cache, truncated to capacity. -/
theorem lruFill_go (f : K → V) :
    ∀ (ks : List K) (c : List (K × V)), ks.Nodup →
      (∀ x ∈ ks, ∀ q ∈ c, q.1 ≠ x) → c.length ≤ maxsize →
      ks.foldl (fun acc k => (lruAccess acc f k).2) c =
        ((ks.reverse.map fun k => (k, f k)) ++ c).take maxsize := by
  intro ks
  induction ks with
  | nil =>
      intro c _ _ hlen
      simpa using (List.take_of_length_le hlen).symm
  | cons k ks ih =>
      intro c hnd hfresh hlen
      have hmiss : lruAccess c f k = (f k, ((k, f k) :: c).take maxsize) :=
        lruAccess_miss c f k (fun q hq => hfresh k (by simp) q hq)
      simp only [List.foldl_cons, hmiss]
      have hnd' : ks.Nodup := (List.nodup_cons.mp hnd).2
      have hknotin : k ∉ ks := (List.nodup_cons.mp hnd).1
      have hfresh' : ∀ x ∈ ks, ∀ q ∈ ((k, f k) :: c).take maxsize, q.1 ≠ x := by
        intro x hx q hq
        have hq' : q ∈ (k, f k) :: c := List.mem_of_mem_take hq
        rcases List.mem_cons.mp hq' with h | h
        · subst h
          simp only
          intro hkx
          exact hknotin (hkx ▸ hx)
        · exact hfresh x (by simp [hx]) q h
      have hlen' : (((k, f k) :: c).take maxsize).length ≤ maxsize := by
        simp only [List.length_take]
        omega
      rw [ih (((k, f k) :: c).take maxsize) hnd' hfresh' hlen']
      have hrev : (((k :: ks).reverse.map fun k => (k, f k)) ++ c)
          = ((ks.reverse.map fun k => (k, f k)) ++ ((k, f k) :: c)) := by
        simp
      rw [hrev, List.take_append_eq_append_take, List.take_append_eq_append_take,
        List.take_take]
      congr 1
      congr 1
      omega

/-- Filling an empty LRU cache with 101 pairwise-distinct keys leaves
exactly the 100 most recently inserted entries, in recency order. -/
theorem lruFill_distinct (f : K → V) (ks : List K) (hnd : ks.Nodup)
    (hlen : ks.length = 101) :
    lruFill f ks = ks.tail.reverse.map fun k => (k, f k) := by
  have h := lruFill_go f ks [] hnd (by simp) (by simp [maxsize])
  rw [lruFill, h]
  cases ks with
  | nil => simp at hlen
  | cons k₀ rest =>
      have hr : rest.length = 100 := by simpa using hlen
      have hA : ((rest.reverse.map fun k => (k, f k))).length = 100 := by simp [hr]
      simp only [List.reverse_cons, List.map_append, List.append_nil]
      rw [List.take_append_of_le_length (by simp [hA, maxsize, hr])]
      rw [List.take_of_length_le (by simp [hA, maxsize, hr])]
      simp

end LruLemmas

/-- Claim C2 (amended): for every identifier and region,
`get_player_info` never raises past its own boundary: on an HTTP status
other than 200 it returns the fallback record with nickname
"❌ Fetch failed" (the source prefixes each failure nickname with the
"❌ " marker), zeroed timestamps, readable timestamps "❌ Unknown",
level and experience "0", rank "Unknown", and guild "None"; on timeout
the same fallback shape with nickname "❌ Timeout"; on any other
exception the same fallback shape with nickname "❌ Error". -/
theorem claim_C2 (player_id server : String) :
    (∀ (status : Nat) (body : Except Unit Json), status ≠ 200 →
        get_player_info player_id server (.http status body) =
          fallbackInfo "❌ Fetch failed" server) ∧
    get_player_info player_id server .timeout = fallbackInfo "❌ Timeout" server ∧
    get_player_info player_id server .exc = fallbackInfo "❌ Error" server := by
  refine ⟨?_, rfl, rfl⟩
  intro status body h
  simp [get_player_info, h]

/-- Claim C2, witness: a concrete 500 reply yields the fetch-failed
fallback record. -/
theorem claim_C2_witness :
    get_player_info "1" "BD" (.http 500 (.ok .null)) = fallbackInfo "❌ Fetch failed" "BD" :=
  (claim_C2 "1" "BD").1 500 (.ok .null) (by decide)

/-- Claim C2, counterexample to the claim as stated: the fallback
nicknames are not the bare strings "Fetch failed" / "Timeout" /
"Error"; each carries the "❌ " marker prefix. -/
theorem claim_C2_cex :
    (get_player_info "1" "BD" (.http 500 (.ok .null))).nickname ≠ .str "Fetch failed" ∧
    (get_player_info "1" "BD" .timeout).nickname ≠ .str "Timeout" ∧
    (get_player_info "1" "BD" .exc).nickname ≠ .str "Error" := by
  refine ⟨?_, ?_, ?_⟩
  · intro h
    have h2 : Json.str "❌ Fetch failed" = Json.str "Fetch failed" := h
    injection h2 with hs
    exact absurd hs (by decide)
  · intro h
    have h2 : Json.str "❌ Timeout" = Json.str "Timeout" := h
    injection h2 with hs
    exact absurd hs (by decide)
  · intro h
    have h2 : Json.str "❌ Error" = Json.str "Error" := h
    injection h2 with hs
    exact absurd hs (by decide)

/-- Claim C5: the top-level status text of the aggregated result is the
success text exactly when the ban lookup succeeded, and the
partial-data text exactly when it did not — independently of the
account-info environment (`infoEnv` is universally quantified, so a
failed account-info fetch cannot flip the indicator). -/
theorem claim_C5 (c : Cache) (infoEnv : String × String → FetchOutcome)
    (banEnv : String → FetchOutcome) (player_id server : String) :
    ((check_banned_fast c infoEnv banEnv player_id server).1.status =
        "Account checked successfully"
      ↔ (check_ban_status (banEnv player_id)).success = true) ∧
    ((check_banned_fast c infoEnv banEnv player_id server).1.status =
        "Partial data fetched"
      ↔ (check_ban_status (banEnv player_id)).success = false) := by
  cases hsucc : (check_ban_status (banEnv player_id)).success with
  | true => constructor <;> simp [check_banned_fast, hsucc]
  | false => constructor <;> simp [check_banned_fast, hsucc]

/-- Claim C6 (amended): the ban status text of the aggregated result is
"🚫 BANNED" exactly when the ban flag is truthy and "✅ NOT BANNED"
otherwise (the source prefixes the BANNED / NOT BANNED texts with emoji
markers), and the duration text is the interpolation "\x7bperiod\x7d
month(s)" of the ban record's period when banned and "No ban"
otherwise. -/
theorem claim_C6 (c : Cache) (infoEnv : String × String → FetchOutcome)
    (banEnv : String → FetchOutcome) (player_id server : String) :
    ((check_banned_fast c infoEnv banEnv player_id server).1.account = "🚫 BANNED"
      ↔ pyTruthy (check_ban_status (banEnv player_id)).is_banned = true) ∧
    ((check_banned_fast c infoEnv banEnv player_id server).1.account = "✅ NOT BANNED"
      ↔ pyTruthy (check_ban_status (banEnv player_id)).is_banned = false) ∧
    (check_banned_fast c infoEnv banEnv player_id server).1.duration =
      (if pyTruthy (check_ban_status (banEnv player_id)).is_banned = true
        then pyStr (check_ban_status (banEnv player_id)).period ++ " month(s)"
        else "No ban") := by
  cases hban : pyTruthy (check_ban_status (banEnv player_id)).is_banned with
  | true => refine ⟨?_, ?_, ?_⟩ <;> simp [check_banned_fast, hban]
  | false => refine ⟨?_, ?_, ?_⟩ <;> simp [check_banned_fast, hban]

/-- Claim C6, counterexample to the claim as stated: on a banned reply
the status text is "🚫 BANNED", not the bare string "BANNED", and on a
clean reply it is "✅ NOT BANNED", not the bare string "NOT BANNED". -/
theorem claim_C6_cex :
    ((check_banned_fast [] (fun _ => .timeout)
        (fun _ => .http 200 (.ok (.obj [("data",
          .obj [("is_banned", .num 1), ("period", .num 3)])]))) "123" "BD").1.banned = true) ∧
    ((check_banned_fast [] (fun _ => .timeout)
        (fun _ => .http 200 (.ok (.obj [("data",
          .obj [("is_banned", .num 1), ("period", .num 3)])]))) "123" "BD").1.account
      ≠ "BANNED") ∧
    ((check_banned_fast [] (fun _ => .timeout)
        (fun _ => .timeout) "123" "BD").1.banned = false) ∧
    ((check_banned_fast [] (fun _ => .timeout)
        (fun _ => .timeout) "123" "BD").1.account ≠ "NOT BANNED") := by
  refine ⟨rfl, ?_, rfl, ?_⟩
  · intro h
    exact absurd (show "🚫 BANNED" = "BANNED" from h) (by decide)
  · intro h
    exact absurd (show "✅ NOT BANNED" = "NOT BANNED" from h) (by decide)

/-- Claim C7: the timestamp parser keeps only the first two
space-delimited tokens joined by a single space (dropping any trailing
timezone token); a non-empty string with fewer than two tokens is
returned unchanged; "2025-02-10 20:27:51 BDT" maps to
"2025-02-10 20:27:51" and the empty string maps to the "❌ Unknown"
marker text. -/
theorem claim_C7 :
    (∀ s : String, 2 ≤ (pySplitSpace s).length →
        parse_date_string (.str s) = .str (" ".intercalate ((pySplitSpace s).take 2))) ∧
    (∀ s : String, s ≠ "" → (pySplitSpace s).length < 2 →
        parse_date_string (.str s) = .str s) ∧
    parse_date_string (.str "2025-02-10 20:27:51 BDT") = .str "2025-02-10 20:27:51" ∧
    parse_date_string (.str "") = .str "❌ Unknown" := by
  refine ⟨?_, ?_, by rfl, by rfl⟩
  · intro s h2
    by_cases hs : s = ""
    · subst hs
      exact absurd h2 (by decide)
    · have hne : pyFalsy (.str s) = false := by
        simp only [pyFalsy, Bool.eq_false_iff, ne_eq, String.isEmpty_iff]
        exact hs
      simp [parse_date_string, hne, h2]
  · intro s hs hlt
    have hne : pyFalsy (.str s) = false := by
      simp only [pyFalsy, Bool.eq_false_iff, ne_eq, String.isEmpty_iff]
      exact hs
    simp [parse_date_string, hne, Nat.not_le.mpr hlt]

/-- Claim C7, witness: a three-token string keeps its first two tokens;
a one-token string is unchanged. -/
theorem claim_C7_witness :
    parse_date_string (.str "2025-02-10 20:27:51 BDT") =
      .str (" ".intercalate ((pySplitSpace "2025-02-10 20:27:51 BDT").take 2)) ∧
    parse_date_string (.str "abc") = .str "abc" :=
  ⟨claim_C7.1 "2025-02-10 20:27:51 BDT" (by decide),
   claim_C7.2.1 "abc" (by decide) (by decide)⟩

/-- Claim C8: a signature string longer than 50 characters is stored as
its first 50 characters followed by the "..." marker; one of at most 50
characters is stored unchanged. -/
theorem claim_C8 :
    (∀ s : String, 50 < s.length →
        signatureEntry (.str s) = .ok (.str (s.take 50 ++ "..."))) ∧
    (∀ s : String, s.length ≤ 50 → signatureEntry (.str s) = .ok (.str s)) := by
  constructor
  · intro s h
    simp [signatureEntry, pyLen, h]
  · intro s h
    simp [signatureEntry, pyLen, Nat.not_lt.mpr h]

/-- Claim C8, witness: a 60-character signature is truncated to its
first 50 characters plus the marker; a 40-character one is unchanged. -/
theorem claim_C8_witness :
    signatureEntry (.str "aaaaaaaaaaaaaaaaaaaaaaaaaaaaaaaaaaaaaaaaaaaaaaaaaaaaaaaaaaaa") =
      .ok (.str ("aaaaaaaaaaaaaaaaaaaaaaaaaaaaaaaaaaaaaaaaaaaaaaaaaaaaaaaaaaaa".take 50 ++ "...")) ∧
    signatureEntry (.str "bbbbbbbbbbbbbbbbbbbbbbbbbbbbbbbbbbbbbbbb") =
      .ok (.str "bbbbbbbbbbbbbbbbbbbbbbbbbbbbbbbbbbbbbbbb") :=
  ⟨claim_C8.1 "aaaaaaaaaaaaaaaaaaaaaaaaaaaaaaaaaaaaaaaaaaaaaaaaaaaaaaaaaaaa" (by decide),
   claim_C8.2 "bbbbbbbbbbbbbbbbbbbbbbbbbbbbbbbbbbbbbbbb" (by decide)⟩

/-- Claim C9: `/info/<uid>` performs no numeric validation (its reply
is independent of the identifier); a 200 upstream reply with parseable
JSON is forwarded verbatim with status 200; any other upstream status
is propagated together with an error envelope carrying that status; a
timeout, another exception or unparseable JSON yields the 500
internal-exception envelope. -/
theorem claim_C9 (uid uid' : String) :
    (∀ data : Json, get_full_info uid (.http 200 (.ok data)) =
        { status := 200, body := .forwarded data }) ∧
    (∀ (s : Nat) (body : Except Unit Json), s ≠ 200 →
        get_full_info uid (.http s body) =
          { status := s, body := .errEnvelope "Failed to fetch account info" s }) ∧
    get_full_info uid .timeout =
      { status := 500, body := .excEnvelope "Internal server error" 500 } ∧
    get_full_info uid .exc =
      { status := 500, body := .excEnvelope "Internal server error" 500 } ∧
    get_full_info uid (.http 200 (.error ())) =
      { status := 500, body := .excEnvelope "Internal server error" 500 } ∧
    ∀ o : FetchOutcome, get_full_info uid o = get_full_info uid' o := by
  refine ⟨fun data => rfl, ?_, rfl, rfl, rfl, fun o => rfl⟩
  intro s body h
  simp [get_full_info, h]

/-- Claim C9, witness: a non-numeric identifier is not rejected, and a
503 upstream reply is propagated with the error envelope. -/
theorem claim_C9_witness :
    get_full_info "abc" (.http 503 (.ok (.obj []))) =
      { status := 503, body := .errEnvelope "Failed to fetch account info" 503 } :=
  (claim_C9 "abc" "xyz").2.1 503 (.ok (.obj [])) (by decide)

/-- Claim C1 (amended): `/check` rejects a missing or empty `uid` with
status 400 and the required-id message, and a `uid` failing Python's
`str.isdigit()` test (some character outside the Unicode digit code
points) with status 400 and the invalid-format message; the two
messages differ; in both cases the reply is the same for every
upstream environment and the cache is returned unchanged (no upstream
call is made).  The validation is `isdigit`, not "decimal digits
only": Unicode digit code points such as '²' pass it. -/
theorem claim_C1 (uidArg serverArg : Option String) (c : Cache)
    (infoEnv : String × String → FetchOutcome) (banEnv : String → FetchOutcome) :
    ((uidArg.getD "").isEmpty = true →
        check uidArg serverArg c infoEnv banEnv =
          ({ status := 400, body := .err "Player ID (uid) is required!" 400 }, c)) ∧
    ((uidArg.getD "").isEmpty = false → pyIsdigit (uidArg.getD "") = false →
        check uidArg serverArg c infoEnv banEnv =
          ({ status := 400, body := .err "Invalid UID format. Must be numeric!" 400 }, c)) ∧
    "Player ID (uid) is required!" ≠ "Invalid UID format. Must be numeric!" := by
  refine ⟨?_, ?_, by decide⟩
  · intro h
    simp [check, h]
  · intro h1 h2
    simp [check, h1, h2]

/-- Claim C1, witness: a missing `uid` and the non-numeric `uid` "12a"
are both rejected with status 400, distinct messages, untouched cache. -/
theorem claim_C1_witness :
    check none (some "BD") [] (fun _ => .timeout) (fun _ => .timeout) =
      ({ status := 400, body := .err "Player ID (uid) is required!" 400 }, ([] : Cache)) ∧
    check (some "12a") none [] (fun _ => .timeout) (fun _ => .timeout) =
      ({ status := 400, body := .err "Invalid UID format. Must be numeric!" 400 }, ([] : Cache)) :=
  ⟨(claim_C1 none (some "BD") [] (fun _ => .timeout) (fun _ => .timeout)).1 (by decide),
   (claim_C1 (some "12a") none [] (fun _ => .timeout) (fun _ => .timeout)).2.1
     (by decide) (by decide)⟩

/-- Claim C1, counterexample to the claim as stated: the uid "²"
(superscript two) does not consist of decimal digits, yet `/check`
accepts it — Python's `str.isdigit()` is true of '²' — and proceeds to
the upstream calls, answering 200 rather than 400. -/
theorem claim_C1_cex :
    ("²".data.all Char.isDigit) = false ∧
    pyIsdigit "²" = true ∧
    (check (some "²") none [] (fun _ => .timeout) (fun _ => .timeout)).1.status = 200 := by
  refine ⟨by decide, by decide, ?_⟩
  rfl

/-- Claim C3: the memoization cache is keyed by `(identifier, region)`
argument tuples, never exceeds 100 entries, and after inserting 101
pairwise-distinct tuples into an empty cache exactly the
least-recently-accessed one (the first inserted, none being re-accessed)
has been evicted: 100 entries remain, in recency order, and the first
key is no longer resident. -/
theorem claim_C3 (infoEnv : String × String → FetchOutcome) :
    (∀ (c : Cache) (player_id server : String), c.length ≤ maxsize →
        ((get_player_info_cached c infoEnv player_id server).2).length ≤ maxsize) ∧
    (∀ ks : List (String × String), ks.Nodup → ks.length = 101 →
        (lruFill (fun k => get_player_info k.1 k.2 (infoEnv k)) ks).length = 100 ∧
        (lruFill (fun k => get_player_info k.1 k.2 (infoEnv k)) ks).map Prod.fst =
          ks.tail.reverse ∧
        ∀ k₀ ∈ ks.head?,
          k₀ ∉ (lruFill (fun k => get_player_info k.1 k.2 (infoEnv k)) ks).map Prod.fst) := by
  constructor
  · intro c player_id server hlen
    exact lruAccess_length_le c _ _ hlen
  · intro ks hnd hlen
    have h := lruFill_distinct (fun k => get_player_info k.1 k.2 (infoEnv k)) ks hnd hlen
    refine ⟨?_, ?_, ?_⟩
    · rw [h]
      simp only [List.length_map, List.length_reverse, List.length_tail]
      omega
    · rw [h, List.map_map]
      exact List.map_id ks.tail.reverse
    · intro k₀ hk₀ hmem
      cases ks with
      | nil => simp at hk₀
      | cons a l =>
          have ha : a = k₀ := by simpa using hk₀
          subst ha
          rw [h] at hmem
          simp at hmem
          exact (List.nodup_cons.mp hnd).1 hmem

/-- Claim C3, witness: 101 distinct `(uid, server)` tuples inserted into
the empty cache leave exactly 100 resident, with the first-inserted
tuple evicted; and one access to a within-capacity cache stays within
capacity. -/
theorem claim_C3_witness :
    ((get_player_info_cached [] (fun _ => .timeout) "1" "BD").2).length ≤ maxsize ∧
    (lruFill (fun k => get_player_info k.1 k.2 ((fun _ => .timeout) k))
        ((List.range 101).map fun n => (toString n, "BD"))).length = 100 ∧
    ("0", "BD") ∉
      (lruFill (fun k => get_player_info k.1 k.2 ((fun _ => .timeout) k))
        ((List.range 101).map fun n => (toString n, "BD"))).map Prod.fst := by
  refine ⟨(claim_C3 (fun _ => .timeout)).1 [] "1" "BD" (by decide), ?_, ?_⟩
  · exact ((claim_C3 (fun _ => .timeout)).2 ((List.range 101).map fun n => (toString n, "BD"))
      (by decide) (by decide)).1
  · intro hmem
    exact ((claim_C3 (fun _ => .timeout)).2 ((List.range 101).map fun n => (toString n, "BD"))
      (by decide) (by decide)).2.2 ("0", "BD") (by decide) hmem

/-- Claim C4: with `(player_id, server)` not yet resident, the first
`/check`-style lookup stores and returns exactly the fresh fetch of
that moment, and the two following consecutive lookups with the same
pair — under arbitrarily changed upstream environments `env₁`, `env₂` —
return that identical record, never refetching. -/
theorem claim_C4 (c : Cache) (env₀ env₁ env₂ : String × String → FetchOutcome)
    (player_id server : String) (h : ∀ q ∈ c, q.1 ≠ (player_id, server)) :
    (get_player_info_cached c env₀ player_id server).1 =
        get_player_info player_id server (env₀ (player_id, server)) ∧
    (get_player_info_cached (get_player_info_cached c env₀ player_id server).2
        env₁ player_id server).1 =
      (get_player_info_cached c env₀ player_id server).1 ∧
    (get_player_info_cached
        (get_player_info_cached (get_player_info_cached c env₀ player_id server).2
          env₁ player_id server).2 env₂ player_id server).1 =
      (get_player_info_cached c env₀ player_id server).1 := by
  have hmiss :=
    lruAccess_miss c (fun k => get_player_info k.1 k.2 (env₀ k)) (player_id, server) h
  have e1 : get_player_info_cached c env₀ player_id server =
      (get_player_info player_id server (env₀ (player_id, server)),
        ((player_id, server), get_player_info player_id server (env₀ (player_id, server)))
          :: c.take 99) := by
    unfold get_player_info_cached
    rw [hmiss]
    rfl
  have e2 : get_player_info_cached (get_player_info_cached c env₀ player_id server).2
      env₁ player_id server =
      (get_player_info player_id server (env₀ (player_id, server)),
        ((player_id, server), get_player_info player_id server (env₀ (player_id, server))) ::
          (((player_id, server), get_player_info player_id server (env₀ (player_id, server)))
              :: c.take 99).filter (fun q => decide (q.1 ≠ (player_id, server)))) := by
    rw [e1]
    unfold get_player_info_cached
    exact lruAccess_cons_self _ _ _ _
  refine ⟨by rw [e1], by rw [e2, e1], ?_⟩
  rw [e2, e1]
  show (lruAccess
      (((player_id, server), get_player_info player_id server (env₀ (player_id, server))) ::
        (((player_id, server), get_player_info player_id server (env₀ (player_id, server)))
            :: c.take 99).filter (fun q => decide (q.1 ≠ (player_id, server))))
      (fun k => get_player_info k.1 k.2 (env₂ k)) (player_id, server)).1 =
    get_player_info player_id server (env₀ (player_id, server))
  rw [lruAccess_cons_self]

/-- Claim C4, witness: with an empty cache, the value fetched at
insertion time (a timeout fallback) is returned unchanged by the two
following lookups even though the upstream environment has changed. -/
theorem claim_C4_witness :
    (get_player_info_cached [] (fun _ => .timeout) "123" "BD").1 =
        get_player_info "123" "BD" .timeout ∧
    (get_player_info_cached (get_player_info_cached [] (fun _ => .timeout) "123" "BD").2
        (fun _ => .exc) "123" "BD").1 =
      (get_player_info_cached [] (fun _ => .timeout) "123" "BD").1 ∧
    (get_player_info_cached
        (get_player_info_cached (get_player_info_cached [] (fun _ => .timeout) "123" "BD").2
          (fun _ => .exc) "123" "BD").2 (fun _ => .http 404 (.ok .null)) "123" "BD").1 =
      (get_player_info_cached [] (fun _ => .timeout) "123" "BD").1 :=
  claim_C4 [] (fun _ => .timeout) (fun _ => .exc) (fun _ => .http 404 (.ok .null))
    "123" "BD" (by simp)

/-- Claim C10: a 200 upstream reply whose JSON object lacks the expected
sections yields a fourth, well-formed placeholder record, distinct from
the three failure fallbacks: nickname "❌ Not available", region the
caller-supplied server, level and experience "0", rank "BR: 0", guild
"No Guild", readable timestamps "❌ Unknown", and an empty-string
signature — which, being falsy, keeps the BIO field out of the
aggregated result. -/
theorem claim_C10 (player_id server : String) (fs : List (String × Json))
    (h1 : List.lookup "AccountInfo" fs = none)
    (h2 : List.lookup "AccountProfileInfo" fs = none)
    (h3 : List.lookup "GuildInfo" fs = none)
    (h4 : List.lookup "SocialInfo" fs = none) :
    get_player_info player_id server (.http 200 (.ok (.obj fs))) =
      { nickname := .str "❌ Not available", region := .str server, lastLoginAt := "0",
        lastLoginReadable := .str "❌ Unknown", createAt := "0",
        createAtReadable := .str "❌ Unknown", level := "0", experience := "0",
        rank := "BR: 0", guild := .str "No Guild", signature := some (.str "") } ∧
    (get_player_info player_id server (.http 200 (.ok (.obj fs)))).nickname ≠
      (fallbackInfo "❌ Fetch failed" server).nickname ∧
    (get_player_info player_id server (.http 200 (.ok (.obj fs)))).nickname ≠
      (fallbackInfo "❌ Timeout" server).nickname ∧
    (get_player_info player_id server (.http 200 (.ok (.obj fs)))).nickname ≠
      (fallbackInfo "❌ Error" server).nickname ∧
    ∀ banEnv : String → FetchOutcome,
      (check_banned_fast [] (fun _ => .http 200 (.ok (.obj fs)))
          banEnv player_id server).1.bio = none := by
  have hmain : get_player_info player_id server (.http 200 (.ok (.obj fs))) =
      { nickname := .str "❌ Not available", region := .str server, lastLoginAt := "0",
        lastLoginReadable := .str "❌ Unknown", createAt := "0",
        createAtReadable := .str "❌ Unknown", level := "0", experience := "0",
        rank := "BR: 0", guild := .str "No Guild", signature := some (.str "") } := by
    simp [get_player_info, parseInfo, pyDictGet, h1, h2, h3, h4, Bind.bind, Except.bind,
      signatureEntry, pyLen, parse_date_string, pyFalsy, pyStr]
    exact fun habs => absurd habs (by decide)
  refine ⟨hmain, ?_, ?_, ?_, ?_⟩
  · rw [hmain]
    intro hcontra
    exact absurd (show "❌ Not available" = "❌ Fetch failed" by
      injection hcontra) (by decide)
  · rw [hmain]
    intro hcontra
    exact absurd (show "❌ Not available" = "❌ Timeout" by
      injection hcontra) (by decide)
  · rw [hmain]
    intro hcontra
    exact absurd (show "❌ Not available" = "❌ Error" by
      injection hcontra) (by decide)
  · intro banEnv
    simp [check_banned_fast, get_player_info_cached, lruAccess, hmain, pyTruthy, pyFalsy]
    decide

/-- Claim C10, witness: the empty 200 body produces the placeholder
record and the aggregated result omits the BIO field. -/
theorem claim_C10_witness :
    get_player_info "42" "BD" (.http 200 (.ok (.obj []))) =
      { nickname := .str "❌ Not available", region := .str "BD", lastLoginAt := "0",
        lastLoginReadable := .str "❌ Unknown", createAt := "0",
        createAtReadable := .str "❌ Unknown", level := "0", experience := "0",
        rank := "BR: 0", guild := .str "No Guild", signature := some (.str "") } ∧
    (check_banned_fast [] (fun _ => .http 200 (.ok (.obj [])))
        (fun _ => .timeout) "42" "BD").1.bio = none :=
  ⟨(claim_C10 "42" "BD" [] rfl rfl rfl rfl).1,
   (claim_C10 "42" "BD" [] rfl rfl rfl rfl).2.2.2.2 (fun _ => .timeout)⟩
